import Mathlib

/-!
Verification of the block-propagation relay in
`core/deliverservice/blocksprovider/blocksprovider.go`.

The Go code is shallowly embedded: the receive loop `DeliverBlocks` is
modelled as a function over a finite list of iteration inputs, where each
iteration input records the value of the atomic `done` flag read at the
loop head and the result of the stream client's `Recv` call.  External
collaborators (`proto.Marshal`, the `MessageCryptoService` verifier, the
gossip adapter) are oracles bundled in an `Env`.  The loop produces a
trace of observable events (receives, verifier calls, payload adds,
gossip broadcasts, stream closes, log lines) and an exit kind, so that
ordering, exactly-once and termination properties can be stated over
traces.
-/

set_option linter.unusedVariables false

namespace BlocksProvider

/-- Serialized bytes (Go `[]byte`), as a list of byte values. -/
abbrev Bytes := List Nat

/-- UTF-8 encoding of one code point (Char code points are never in the
surrogate range, so the four length classes below are exhaustive). -/
def charUtf8 (n : Nat) : List Nat :=
  if n < 128 then [n]
  else if n < 2048 then [192 + n / 64, 128 + n % 64]
  else if n < 65536 then [224 + n / 4096, 128 + (n / 64) % 64, 128 + n % 64]
  else [240 + n / 262144, 128 + (n / 4096) % 64, 128 + (n / 64) % 64, 128 + n % 64]

/-- Go `[]byte(s)` conversion of a string: its UTF-8 code units. -/
def strBytes (s : String) : Bytes := s.data.flatMap (fun c => charUtf8 c.toNat)

/-- `gossip/common.ChainID` is a `[]byte` newtype. -/
abbrev ChainID := Bytes

/-- The conversion `gossipcommon.ChainID(b.chainID)` applied in the source. -/
def gossipChainID (s : String) : ChainID := strBytes s

/-- `protos/common.BlockHeader`: sequence number plus hashes. -/
structure BlockHeader where
  Number : Nat
  PreviousHash : Bytes
  DataHash : Bytes
deriving Repr, DecidableEq

/-- `protos/common.Block`.  In Go the `Header` field is a pointer and may be
nil, hence `Option`.  The body and metadata are carried opaquely: the relay
only reads `Header.Number`; serialization of the whole block is an external
oracle. -/
structure Block where
  Header : Option BlockHeader
  Data : List Bytes
  Metadata : List Bytes
deriving Repr, DecidableEq

/-- `common.Status_SUCCESS` (proto enum value 200). -/
def Status_SUCCESS : Nat := 200

/-- `protos/orderer.DeliverResponse`: a tagged union.  The `block` case
carries the inner `*common.Block` pointer, which may be nil.  `unknown`
stands for any variant hitting the `default` branch of the type switch. -/
inductive DeliverResponse
  | status (s : Nat)
  | block (b : Option Block)
  | unknown
deriving Repr, DecidableEq

/-- `protos/gossip.GossipMessage_Tag` enum. -/
inductive GossipTag
  | UNDEFINED
  | EMPTY
  | ORG_ONLY
  | CHAN_ONLY
  | CHAN_AND_ORG
  | CHAN_OR_ORG
deriving Repr, DecidableEq

/-- `protos/gossip.Payload`: the `(seqNum, serialized block)` pairing. -/
structure Payload where
  Data : Bytes
  SeqNum : Nat
deriving Repr, DecidableEq

/-- Content of a gossip message as produced by this core: a `DataMsg`
wrapping a payload (the only content variant `createGossipMsg` builds). -/
inductive GossipContent
  | DataMsg (Payload : Payload)
deriving Repr, DecidableEq

/-- `protos/gossip.GossipMessage` (the fields set by `createGossipMsg`). -/
structure GossipMessage where
  Nonce : Nat
  Tag : GossipTag
  Channel : Bytes
  Content : GossipContent
deriving Repr, DecidableEq

/-- Source `createPayload`: pairs the sequence number with the marshaled
block. -/
def createPayload (seqNum : Nat) (marshaledBlock : Bytes) : Payload :=
  { Data := marshaledBlock
    SeqNum := seqNum }

/-- Source `createGossipMsg`: wraps a payload with nonce 0, tag
`CHAN_AND_ORG`, channel `[]byte(chainID)` and a `DataMsg` content. -/
def createGossipMsg (chainID : String) (payload : Payload) : GossipMessage :=
  { Nonce := 0
    Tag := GossipTag.CHAN_AND_ORG
    Channel := strBytes chainID
    Content := GossipContent.DataMsg payload }

/-- External collaborators, as oracles:
`marshal` is `proto.Marshal` (fallible), `VerifyBlock` is the
`MessageCryptoService` verifier (`none` = nil error = accepted),
`PeersOfChannel` returns the member descriptors (only their number is
consumed, so descriptors are abstracted to `Unit`), and `AddPayload`
returns the buffer's error, which the relay discards. -/
structure Env where
  marshal : Block → Except String Bytes
  VerifyBlock : ChainID → Nat → Bytes → Option String
  PeersOfChannel : ChainID → List Unit
  AddPayload : String → Payload → Option String

/-- Observable events of a relay run, in program order. -/
inductive Event
  | recv
  | warnRecvErr
  | warnSuccessStatus
  | statusWarn (s : Nat)
  | errSerialize (seqNum : Nat)
  | verifyCall (chainID : ChainID) (seqNum : Nat) (data : Bytes)
  | errVerify (seqNum : Nat)
  | peersQuery (chainID : ChainID) (n : Nat)
  | addPayload (chainID : String) (p : Payload)
  | gossip (m : GossipMessage)
  | warnUnknown
  | close
deriving Repr, DecidableEq

/-- How a run of the loop ended.  `nilPanic` is the Go nil-pointer
dereference of `t.Block.Header.Number`. -/
inductive ExitKind
  | doneFlag
  | recvError
  | successStatus
  | unknownMsg
  | nilPanic
deriving Repr, DecidableEq

/-- One loop iteration's inputs: the value the atomic load of `done`
yields at the loop head, and what `Recv` returns if it is called. -/
structure IterInput where
  doneFlag : Bool
  recv : Except String DeliverResponse

/-- Body of the `case *orderer.DeliverResponse_Block` branch together with
the other switch branches: classify one received message, returning the
events it emits and `some` exit kind if it terminates the loop. -/
def processMsg (env : Env) (chainID : String) :
    DeliverResponse → List Event × Option ExitKind
  | .status s =>
    if s = Status_SUCCESS then
      ([.warnSuccessStatus], some .successStatus)
    else
      ([.statusWarn s], none)
  | .block none => ([], some .nilPanic)
  | .block (some blk) =>
    match blk.Header with
    | none => ([], some .nilPanic)
    | some hdr =>
      match env.marshal blk with
      | .error _ => ([.errSerialize hdr.Number], none)
      | .ok marshaledBlock =>
        match env.VerifyBlock (gossipChainID chainID) hdr.Number marshaledBlock with
        | some _ =>
          ([.verifyCall (gossipChainID chainID) hdr.Number marshaledBlock,
            .errVerify hdr.Number], none)
        | none =>
          -- the AddPayload return value is computed by the adapter but
          -- discarded by the relay, exactly as in the source
          let _ignored := env.AddPayload chainID (createPayload hdr.Number marshaledBlock)
          ([.verifyCall (gossipChainID chainID) hdr.Number marshaledBlock,
            .peersQuery (gossipChainID chainID)
              (env.PeersOfChannel (gossipChainID chainID)).length,
            .addPayload chainID (createPayload hdr.Number marshaledBlock),
            .gossip (createGossipMsg chainID (createPayload hdr.Number marshaledBlock))],
           none)
  | .unknown => ([.warnUnknown], some .unknownMsg)

/-- The `for !b.isDone()` receive loop of `DeliverBlocks`, without the
deferred close: consumes iteration inputs until an exit or until the
(finite) input list is exhausted, in which case the loop is still running
(blocked in the next `Recv`) and the exit is `none`. -/
def deliverLoop (env : Env) (chainID : String) :
    List IterInput → List Event × Option ExitKind
  | [] => ([], none)
  | i :: rest =>
    if i.doneFlag then ([], some .doneFlag)
    else
      match i.recv with
      | .error _ => ([.recv, .warnRecvErr], some .recvError)
      | .ok msg =>
        match processMsg env chainID msg with
        | (evs, some ek) => (Event.recv :: evs, some ek)
        | (evs, none) =>
          (Event.recv :: (evs ++ (deliverLoop env chainID rest).1),
           (deliverLoop env chainID rest).2)

/-- `DeliverBlocks`: the loop plus the `defer b.client.Close()`, which runs
on every return path and also while panicking.  If the input list is
exhausted with the loop still running, the deferred close has not run. -/
def DeliverBlocks (env : Env) (chainID : String) (inputs : List IterInput) :
    List Event × Option ExitKind :=
  match deliverLoop env chainID inputs with
  | (evs, some ek) => (evs ++ [Event.close], some ek)
  | (evs, none) => (evs, none)

/-- The relay's own fields: the channel identifier and the `done` int32. -/
structure BlocksProviderState where
  chainID : String
  done : Int
deriving Repr, DecidableEq

/-- `NewBlocksProvider`: the constructor leaves `done` at the Go zero
value 0 (running). -/
def NewBlocksProvider (chainID : String) : BlocksProviderState :=
  { chainID := chainID
    done := 0 }

/-- `Stop`'s effect on the relay fields: `atomic.StoreInt32(&b.done, 1)`.
(`Stop` also calls `client.Close()`; that effect is counted separately in
`lifetimeCloseCount`.) -/
def Stop (s : BlocksProviderState) : BlocksProviderState :=
  { s with done := 1 }

/-- `isDone`: `atomic.LoadInt32(&b.done) == 1`. -/
def isDone (s : BlocksProviderState) : Bool := s.done == 1

/-- Operations that can touch the relay state: `Stop` (the only write to
the flag) and any read-only operation (`isDone`, a loop iteration). -/
inductive RelayOp
  | stopOp
  | readOp
deriving Repr, DecidableEq

/-- Effect of one relay operation on the relay fields. -/
def applyOp (s : BlocksProviderState) : RelayOp → BlocksProviderState
  | .stopOp => Stop s
  | .readOp => s

/-- Effect of a sequence of relay operations, applied in order. -/
def applyOps : BlocksProviderState → List RelayOp → BlocksProviderState
  | s, [] => s
  | s, op :: rest => applyOps (applyOp s op) rest

/-- The `seqNum` an `AddPayload` event presents to the buffer, if any. -/
def addPayloadSeq : Event → Option Nat
  | .addPayload _ p => some p.SeqNum
  | _ => none

/-- The `seqNum`s handed to `AddPayload` along a trace, in order. -/
def addPayloadSeqs (evs : List Event) : List Nat := evs.filterMap addPayloadSeq

/-- The `seqNum` a `Gossip` event carries in its wrapped payload, if any. -/
def gossipSeq : Event → Option Nat
  | .gossip m =>
    match m.Content with
    | .DataMsg p => some p.SeqNum
  | _ => none

/-- The `seqNum`s handed to `Gossip` along a trace, in order. -/
def gossipSeqs (evs : List Event) : List Nat := evs.filterMap gossipSeq

/-- The `seqNum` a verifier call presents, if any. -/
def verifySeq : Event → Option Nat
  | .verifyCall _ seqNum _ => some seqNum
  | _ => none

/-- The `seqNum`s presented to the verifier along a trace, in order. -/
def verifySeqs (evs : List Event) : List Nat := evs.filterMap verifySeq

/-- Whether an event is a `Recv` call. -/
def isRecv : Event → Bool
  | .recv => true
  | _ => false

/-- Number of `Recv` calls in a trace. -/
def recvCount (evs : List Event) : Nat := (evs.filter isRecv).length

/-- Whether an event is a `Close` of the stream client. -/
def isClose : Event → Bool
  | .close => true
  | _ => false

/-- Number of `Close` invocations in a trace. -/
def closeCount (evs : List Event) : Nat := (evs.filter isClose).length

/-- Total `Close` invocations on the stream client over a relay lifetime:
`Stop()` itself calls `client.Close()` once if invoked, and
`DeliverBlocks` closes via its deferred call on every exit path. -/
def lifetimeCloseCount (env : Env) (chainID : String) (stopCalled : Bool)
    (inputs : List IterInput) : Nat :=
  (if stopCalled then 1 else 0) + closeCount (DeliverBlocks env chainID inputs).1

/-- Whether an event is the membership-size query (observability only). -/
def isPeersQuery : Event → Bool
  | .peersQuery _ _ => true
  | _ => false

/-- A trace with the observability-only membership queries erased: what
remains is the control-flow-relevant behaviour and the arguments passed
to `AddPayload` and `Gossip`. -/
def observable (evs : List Event) : List Event :=
  evs.filter (fun e => !isPeersQuery e)

/-- The iteration input delivering a given block with the relay running. -/
def blockInput (b : Block) : IterInput :=
  { doneFlag := false
    recv := Except.ok (DeliverResponse.block (some b)) }

/-- The header number of a block (0 if the header pointer is nil; only
used under hypotheses excluding that case). -/
def headerNumber (b : Block) : Nat :=
  match b.Header with
  | some hdr => hdr.Number
  | none => 0

/-- A block message is well formed for `env` and channel `chainID` when its
header is present, it marshals successfully, and the verifier accepts it. -/
def WellFormed (env : Env) (chainID : String) (b : Block) : Prop :=
  ∃ hdr bytes, b.Header = some hdr ∧ env.marshal b = Except.ok bytes ∧
    env.VerifyBlock (gossipChainID chainID) hdr.Number bytes = none

/-- A sample environment whose collaborators all succeed. -/
def sampleEnv : Env :=
  { marshal := fun _ => Except.ok [7, 8]
    VerifyBlock := fun _ _ _ => none
    PeersOfChannel := fun _ => [()]
    AddPayload := fun _ _ => none }

/-- A sample environment whose marshaler always fails. -/
def badMarshalEnv : Env :=
  { marshal := fun _ => Except.error "marshal failure"
    VerifyBlock := fun _ _ _ => none
    PeersOfChannel := fun _ => [()]
    AddPayload := fun _ _ => none }

/-- Same marshaler and verifier as `sampleEnv`, but a different membership
view and a failing local buffer. -/
def otherAdapterEnv : Env :=
  { marshal := fun _ => Except.ok [7, 8]
    VerifyBlock := fun _ _ _ => none
    PeersOfChannel := fun _ => []
    AddPayload := fun _ _ => some "buffer full" }

/-- A sample block with the given sequence number. -/
def sampleBlock (n : Nat) : Block :=
  { Header := some { Number := n, PreviousHash := [], DataHash := [] }
    Data := []
    Metadata := [] }

theorem observable_cons_recv (l : List Event) :
    observable (Event.recv :: l) = Event.recv :: observable l := by
  simp [observable, isPeersQuery]

theorem observable_append (l₁ l₂ : List Event) :
    observable (l₁ ++ l₂) = observable l₁ ++ observable l₂ := by
  simp [observable]

theorem processMsg_no_close (env : Env) (chainID : String) (msg : DeliverResponse) :
    closeCount (processMsg env chainID msg).1 = 0 := by
  cases msg with
  | status s =>
    by_cases h : s = Status_SUCCESS <;>
      simp [processMsg, h, closeCount, isClose]
  | unknown => simp [processMsg, closeCount, isClose]
  | block ob =>
    cases ob with
    | none => simp [processMsg, closeCount]
    | some blk =>
      cases hh : blk.Header with
      | none => simp [processMsg, hh, closeCount]
      | some hdr =>
        cases hmar : env.marshal blk with
        | error e => simp [processMsg, hh, hmar, closeCount, isClose]
        | ok bytes =>
          cases hver : env.VerifyBlock (gossipChainID chainID) hdr.Number bytes with
          | some err => simp [processMsg, hh, hmar, hver, closeCount, isClose]
          | none => simp [processMsg, hh, hmar, hver, closeCount, isClose]

theorem closeCount_append (l₁ l₂ : List Event) :
    closeCount (l₁ ++ l₂) = closeCount l₁ + closeCount l₂ := by
  simp [closeCount, List.filter_append]

theorem closeCount_cons_nonclose (e : Event) (l : List Event)
    (h : isClose e = false) : closeCount (e :: l) = closeCount l := by
  simp [closeCount, List.filter_cons, h]

theorem deliverLoop_no_close (env : Env) (chainID : String) (inputs : List IterInput) :
    closeCount (deliverLoop env chainID inputs).1 = 0 := by
  induction inputs with
  | nil => simp [deliverLoop, closeCount]
  | cons i rest ih =>
    cases hd : i.doneFlag with
    | true => simp [deliverLoop, hd, closeCount]
    | false =>
      cases hr : i.recv with
      | error e => simp [deliverLoop, hd, hr, closeCount, isClose]
      | ok msg =>
        have hpm := processMsg_no_close env chainID msg
        rcases hq : processMsg env chainID msg with ⟨evs, ek⟩
        rw [hq] at hpm
        have hpm2 : closeCount evs = 0 := hpm
        cases ek with
        | some ek =>
          simp only [deliverLoop, hd, hr, hq, Bool.false_eq_true, if_false]
          rw [closeCount_cons_nonclose Event.recv _ rfl]
          exact hpm2
        | none =>
          simp only [deliverLoop, hd, hr, hq, Bool.false_eq_true, if_false]
          rw [closeCount_cons_nonclose Event.recv _ rfl, closeCount_append]
          omega

theorem deliverBlocks_exit_eq (env : Env) (chainID : String) (inputs : List IterInput) :
    (DeliverBlocks env chainID inputs).2 = (deliverLoop env chainID inputs).2 := by
  unfold DeliverBlocks
  rcases hq : deliverLoop env chainID inputs with ⟨evs, ek⟩
  cases ek <;> rfl

theorem deliverBlocks_of_exit_none (env : Env) (chainID : String)
    (inputs : List IterInput) (h : (deliverLoop env chainID inputs).2 = none) :
    DeliverBlocks env chainID inputs = deliverLoop env chainID inputs := by
  unfold DeliverBlocks
  rcases hq : deliverLoop env chainID inputs with ⟨evs, ek⟩
  rw [hq] at h
  simp only at h
  subst h
  rfl

theorem deliverBlocks_of_exit_some (env : Env) (chainID : String)
    (inputs : List IterInput) (ek : ExitKind)
    (h : (deliverLoop env chainID inputs).2 = some ek) :
    DeliverBlocks env chainID inputs =
      ((deliverLoop env chainID inputs).1 ++ [Event.close], some ek) := by
  unfold DeliverBlocks
  rcases hq : deliverLoop env chainID inputs with ⟨evs, ek2⟩
  rw [hq] at h
  simp only at h
  subst h
  rfl

/-- C3: a status-variant message terminates the loop (with no further
receives) exactly when its code is `SUCCESS`; any other status code is
logged and the loop moves on to the next receive. -/
theorem status_terminates_iff_success (env : Env) (chainID : String) (s : Nat)
    (rest : List IterInput) :
    deliverLoop env chainID ({ doneFlag := false, recv := Except.ok (DeliverResponse.status s) } :: rest) =
      if s = Status_SUCCESS then
        ([Event.recv, Event.warnSuccessStatus], some ExitKind.successStatus)
      else
        (Event.recv :: Event.statusWarn s :: (deliverLoop env chainID rest).1,
         (deliverLoop env chainID rest).2) := by
  by_cases h : s = Status_SUCCESS <;> simp [deliverLoop, processMsg, h]

/-- C5: a receive error makes `DeliverBlocks` log and return immediately:
one receive happened, no payload was added, nothing was gossiped, no
further receive occurs whatever the stream would have yielded next, and
the deferred close runs. -/
theorem recv_error_immediate_return (env : Env) (chainID : String) (e : String)
    (rest : List IterInput) :
    DeliverBlocks env chainID ({ doneFlag := false, recv := Except.error e } :: rest) =
      ([Event.recv, Event.warnRecvErr, Event.close], some ExitKind.recvError) := by
  simp [DeliverBlocks, deliverLoop]

/-- C6: a message of a variant that is neither Status nor Block hits the
default branch: a warning is logged and the loop terminates with no
further receives, closing the stream. -/
theorem unknown_message_terminates (env : Env) (chainID : String)
    (rest : List IterInput) :
    DeliverBlocks env chainID ({ doneFlag := false, recv := Except.ok DeliverResponse.unknown } :: rest) =
      ([Event.recv, Event.warnUnknown, Event.close], some ExitKind.unknownMsg) := by
  simp [DeliverBlocks, deliverLoop, processMsg]

/-- C9: the sequence number is read by dereferencing `t.Block.Header.Number`
with no nil guard, before serialization or verification are ever consulted:
a Block message whose inner block pointer is nil, or whose header pointer
is nil, panics the loop (for every environment, so neither the marshaler
nor the verifier was reached), instead of being skipped as a per-message
recoverable fault. -/
theorem nil_block_header_panic_reachable (env : Env) (chainID : String)
    (rest : List IterInput) (d m : List Bytes) :
    DeliverBlocks env chainID ({ doneFlag := false, recv := Except.ok (DeliverResponse.block none) } :: rest) =
      ([Event.recv, Event.close], some ExitKind.nilPanic) ∧
    DeliverBlocks env chainID
        ({ doneFlag := false,
           recv := Except.ok (DeliverResponse.block (some { Header := none, Data := d, Metadata := m })) } :: rest) =
      ([Event.recv, Event.close], some ExitKind.nilPanic) := by
  constructor <;> simp [DeliverBlocks, deliverLoop, processMsg]

theorem deliverLoop_wellFormed (env : Env) (chainID : String) (blocks : List Block)
    (h : ∀ b ∈ blocks, WellFormed env chainID b) :
    addPayloadSeqs (deliverLoop env chainID (blocks.map blockInput)).1 = blocks.map headerNumber ∧
    gossipSeqs (deliverLoop env chainID (blocks.map blockInput)).1 = blocks.map headerNumber ∧
    verifySeqs (deliverLoop env chainID (blocks.map blockInput)).1 = blocks.map headerNumber ∧
    recvCount (deliverLoop env chainID (blocks.map blockInput)).1 = blocks.length ∧
    (deliverLoop env chainID (blocks.map blockInput)).2 = none := by
  induction blocks with
  | nil =>
    simp [deliverLoop, addPayloadSeqs, gossipSeqs, verifySeqs, recvCount]
  | cons b bs ih =>
    obtain ⟨hdr, bytes, hh, hm, hv⟩ := h b (List.mem_cons_self b bs)
    obtain ⟨h1, h2, h3, h4, h5⟩ := ih (fun x hx => h x (List.mem_cons_of_mem b hx))
    have hhn : headerNumber b = hdr.Number := by simp [headerNumber, hh]
    simp only [addPayloadSeqs, gossipSeqs, verifySeqs, recvCount] at h1 h2 h3 h4
    simp [deliverLoop, blockInput, processMsg, hh, hm, hv, hhn,
      addPayloadSeqs, addPayloadSeq, gossipSeqs, gossipSeq, verifySeqs, verifySeq,
      recvCount, isRecv, createPayload, createGossipMsg,
      h1, h2, h3, h4, h5]

/-- C1: for a stream of well-formed Block messages (header present,
serialization succeeds, verifier accepts), `DeliverBlocks` presents the
sequence numbers to the verifier, adds exactly one payload per block to
the buffer, and gossips exactly one message per payload, all in exactly
the order the blocks arrived, with one receive per block and no
termination. -/
theorem deliverBlocks_wellFormed_exactly_once_ordered (env : Env) (chainID : String)
    (blocks : List Block) (h : ∀ b ∈ blocks, WellFormed env chainID b) :
    addPayloadSeqs (DeliverBlocks env chainID (blocks.map blockInput)).1 = blocks.map headerNumber ∧
    gossipSeqs (DeliverBlocks env chainID (blocks.map blockInput)).1 = blocks.map headerNumber ∧
    verifySeqs (DeliverBlocks env chainID (blocks.map blockInput)).1 = blocks.map headerNumber ∧
    recvCount (DeliverBlocks env chainID (blocks.map blockInput)).1 = blocks.length ∧
    (DeliverBlocks env chainID (blocks.map blockInput)).2 = none := by
  obtain ⟨h1, h2, h3, h4, h5⟩ := deliverLoop_wellFormed env chainID blocks h
  rw [deliverBlocks_of_exit_none env chainID (blocks.map blockInput) h5]
  exact ⟨h1, h2, h3, h4, h5⟩

theorem deliverBlocks_wellFormed_exactly_once_ordered_witness :
    (∀ b ∈ [sampleBlock 1, sampleBlock 2], WellFormed sampleEnv "testchain" b) ∧
    addPayloadSeqs (DeliverBlocks sampleEnv "testchain"
        (List.map blockInput [sampleBlock 1, sampleBlock 2])).1 =
      List.map headerNumber [sampleBlock 1, sampleBlock 2] ∧
    gossipSeqs (DeliverBlocks sampleEnv "testchain"
        (List.map blockInput [sampleBlock 1, sampleBlock 2])).1 =
      List.map headerNumber [sampleBlock 1, sampleBlock 2] ∧
    verifySeqs (DeliverBlocks sampleEnv "testchain"
        (List.map blockInput [sampleBlock 1, sampleBlock 2])).1 =
      List.map headerNumber [sampleBlock 1, sampleBlock 2] ∧
    recvCount (DeliverBlocks sampleEnv "testchain"
        (List.map blockInput [sampleBlock 1, sampleBlock 2])).1 =
      [sampleBlock 1, sampleBlock 2].length ∧
    (DeliverBlocks sampleEnv "testchain"
        (List.map blockInput [sampleBlock 1, sampleBlock 2])).2 = none := by
  have hwf : ∀ b ∈ [sampleBlock 1, sampleBlock 2], WellFormed sampleEnv "testchain" b := by
    intro b hb
    rcases List.mem_cons.mp hb with rfl | hb
    · exact ⟨{ Number := 1, PreviousHash := [], DataHash := [] }, [7, 8], rfl, rfl, rfl⟩
    rcases List.mem_cons.mp hb with rfl | hb
    · exact ⟨{ Number := 2, PreviousHash := [], DataHash := [] }, [7, 8], rfl, rfl, rfl⟩
    cases hb
  exact ⟨hwf, deliverBlocks_wellFormed_exactly_once_ordered sampleEnv "testchain"
    [sampleBlock 1, sampleBlock 2] hwf⟩

/-- C2 counterexample: when termination is triggered by `Stop()`, the
claim "Close is invoked exactly once per relay lifetime" fails on the
code: `Stop` itself calls `client.Close()` and the deferred close in
`DeliverBlocks` fires as well, so over the lifetime Close is invoked
twice, even though `DeliverBlocks` exits through the normal-stop path. -/
theorem stop_close_invoked_twice_cex :
    (DeliverBlocks sampleEnv "testchain"
        [{ doneFlag := true, recv := Except.ok DeliverResponse.unknown }]).2 =
      some ExitKind.doneFlag ∧
    lifetimeCloseCount sampleEnv "testchain" true
        [{ doneFlag := true, recv := Except.ok DeliverResponse.unknown }] = 2 ∧
    lifetimeCloseCount sampleEnv "testchain" true
        [{ doneFlag := true, recv := Except.ok DeliverResponse.unknown }] ≠ 1 := by
  refine ⟨by decide, by decide, by decide⟩

/-- C2 amended: no matter how `DeliverBlocks` exits (stop flag, receive
error, success status, unrecognized message, or the nil-header panic),
its deferred `Close` is invoked exactly once per execution; over the
relay lifetime the stream client's `Close` is therefore invoked exactly
once when no `Stop()` occurred and exactly twice when termination came
from `Stop()` (which calls `Close` itself), the second call being
absorbed by `Close`'s idempotence. -/
theorem deliverBlocks_deferred_close_exactly_once (env : Env) (chainID : String)
    (inputs : List IterInput) (stopCalled : Bool)
    (h : (DeliverBlocks env chainID inputs).2.isSome = true) :
    closeCount (DeliverBlocks env chainID inputs).1 = 1 ∧
    lifetimeCloseCount env chainID stopCalled inputs =
      if stopCalled then 2 else 1 := by
  rw [deliverBlocks_exit_eq] at h
  rcases hek : (deliverLoop env chainID inputs).2 with _ | ek
  · rw [hek] at h
    simp at h
  have hD := deliverBlocks_of_exit_some env chainID inputs ek hek
  have hcc : closeCount (DeliverBlocks env chainID inputs).1 = 1 := by
    rw [hD]
    simp only [closeCount_append]
    rw [deliverLoop_no_close]
    rfl
  refine ⟨hcc, ?_⟩
  unfold lifetimeCloseCount
  rw [hcc]
  cases stopCalled <;> rfl

theorem deliverBlocks_deferred_close_exactly_once_witness :
    (DeliverBlocks sampleEnv "testchain"
        [{ doneFlag := false, recv := Except.error "EOF" }]).2.isSome = true ∧
    closeCount (DeliverBlocks sampleEnv "testchain"
        [{ doneFlag := false, recv := Except.error "EOF" }]).1 = 1 ∧
    lifetimeCloseCount sampleEnv "testchain" false
        [{ doneFlag := false, recv := Except.error "EOF" }] =
      if false then 2 else 1 :=
  ⟨by decide, deliverBlocks_deferred_close_exactly_once sampleEnv "testchain"
    [{ doneFlag := false, recv := Except.error "EOF" }] false (by decide)⟩

/-- C4: a Block message that fails serialization, or that the verifier
rejects, produces no payload and no gossip message, does not terminate
the loop, and the loop proceeds to the next received message exactly as
if the bad block had not occurred (so a failure on message n never
prevents processing of message n+1). -/
theorem bad_block_skipped_continues (env : Env) (chainID : String) (blk : Block)
    (hdr : BlockHeader) (rest : List IterInput) (hh : blk.Header = some hdr)
    (hbad : (∃ e, env.marshal blk = Except.error e) ∨
      ∃ bytes err, env.marshal blk = Except.ok bytes ∧
        env.VerifyBlock (gossipChainID chainID) hdr.Number bytes = some err) :
    (deliverLoop env chainID
        ({ doneFlag := false, recv := Except.ok (DeliverResponse.block (some blk)) } :: rest)).2 =
      (deliverLoop env chainID rest).2 ∧
    addPayloadSeqs (deliverLoop env chainID
        ({ doneFlag := false, recv := Except.ok (DeliverResponse.block (some blk)) } :: rest)).1 =
      addPayloadSeqs (deliverLoop env chainID rest).1 ∧
    gossipSeqs (deliverLoop env chainID
        ({ doneFlag := false, recv := Except.ok (DeliverResponse.block (some blk)) } :: rest)).1 =
      gossipSeqs (deliverLoop env chainID rest).1 ∧
    recvCount (deliverLoop env chainID
        ({ doneFlag := false, recv := Except.ok (DeliverResponse.block (some blk)) } :: rest)).1 =
      1 + recvCount (deliverLoop env chainID rest).1 := by
  rcases hbad with ⟨e, hmar⟩ | ⟨bytes, err, hmar, hver⟩
  · simp [deliverLoop, processMsg, hh, hmar,
      addPayloadSeqs, addPayloadSeq, gossipSeqs, gossipSeq, recvCount, isRecv,
      Nat.add_comm]
  · simp [deliverLoop, processMsg, hh, hmar, hver,
      addPayloadSeqs, addPayloadSeq, gossipSeqs, gossipSeq, recvCount, isRecv,
      Nat.add_comm]

theorem bad_block_skipped_continues_witness :
    ((sampleBlock 5).Header = some { Number := 5, PreviousHash := [], DataHash := [] }) ∧
    ((∃ e, badMarshalEnv.marshal (sampleBlock 5) = Except.error e) ∨
      ∃ bytes err, badMarshalEnv.marshal (sampleBlock 5) = Except.ok bytes ∧
        badMarshalEnv.VerifyBlock (gossipChainID "testchain") 5 bytes = some err) ∧
    ((deliverLoop badMarshalEnv "testchain"
        ({ doneFlag := false, recv := Except.ok (DeliverResponse.block (some (sampleBlock 5))) } ::
          [blockInput (sampleBlock 6)])).2 =
      (deliverLoop badMarshalEnv "testchain" [blockInput (sampleBlock 6)]).2 ∧
    addPayloadSeqs (deliverLoop badMarshalEnv "testchain"
        ({ doneFlag := false, recv := Except.ok (DeliverResponse.block (some (sampleBlock 5))) } ::
          [blockInput (sampleBlock 6)])).1 =
      addPayloadSeqs (deliverLoop badMarshalEnv "testchain" [blockInput (sampleBlock 6)]).1 ∧
    gossipSeqs (deliverLoop badMarshalEnv "testchain"
        ({ doneFlag := false, recv := Except.ok (DeliverResponse.block (some (sampleBlock 5))) } ::
          [blockInput (sampleBlock 6)])).1 =
      gossipSeqs (deliverLoop badMarshalEnv "testchain" [blockInput (sampleBlock 6)]).1 ∧
    recvCount (deliverLoop badMarshalEnv "testchain"
        ({ doneFlag := false, recv := Except.ok (DeliverResponse.block (some (sampleBlock 5))) } ::
          [blockInput (sampleBlock 6)])).1 =
      1 + recvCount (deliverLoop badMarshalEnv "testchain" [blockInput (sampleBlock 6)]).1) :=
  ⟨rfl, Or.inl ⟨"marshal failure", rfl⟩,
    bad_block_skipped_continues badMarshalEnv "testchain" (sampleBlock 5)
      { Number := 5, PreviousHash := [], DataHash := [] } [blockInput (sampleBlock 6)]
      rfl (Or.inl ⟨"marshal failure", rfl⟩)⟩

/-- C7: for a block the verifier accepts, the payload is exactly the pair
of the sequence number and the serialized block bytes, and the gossip
message wrapping it carries channel `[]byte(chainID)`, tag
`CHAN_AND_ORG`, nonce 0, and a `DataMsg` content holding that payload. -/
theorem accepted_block_payload_gossip_shape (env : Env) (chainID : String)
    (blk : Block) (hdr : BlockHeader) (bytes : Bytes)
    (hh : blk.Header = some hdr) (hm : env.marshal blk = Except.ok bytes)
    (hv : env.VerifyBlock (gossipChainID chainID) hdr.Number bytes = none) :
    processMsg env chainID (DeliverResponse.block (some blk)) =
      ([Event.verifyCall (gossipChainID chainID) hdr.Number bytes,
        Event.peersQuery (gossipChainID chainID)
          (env.PeersOfChannel (gossipChainID chainID)).length,
        Event.addPayload chainID (createPayload hdr.Number bytes),
        Event.gossip (createGossipMsg chainID (createPayload hdr.Number bytes))],
       none) ∧
    (createPayload hdr.Number bytes).SeqNum = hdr.Number ∧
    (createPayload hdr.Number bytes).Data = bytes ∧
    (createGossipMsg chainID (createPayload hdr.Number bytes)).Channel = strBytes chainID ∧
    (createGossipMsg chainID (createPayload hdr.Number bytes)).Tag = GossipTag.CHAN_AND_ORG ∧
    (createGossipMsg chainID (createPayload hdr.Number bytes)).Nonce = 0 ∧
    (createGossipMsg chainID (createPayload hdr.Number bytes)).Content =
      GossipContent.DataMsg (createPayload hdr.Number bytes) := by
  refine ⟨?_, rfl, rfl, rfl, rfl, rfl, rfl⟩
  simp [processMsg, hh, hm, hv]

theorem accepted_block_payload_gossip_shape_witness :
    ((sampleBlock 3).Header = some { Number := 3, PreviousHash := [], DataHash := [] }) ∧
    (sampleEnv.marshal (sampleBlock 3) = Except.ok [7, 8]) ∧
    (sampleEnv.VerifyBlock (gossipChainID "testchain") 3 [7, 8] = none) ∧
    (processMsg sampleEnv "testchain" (DeliverResponse.block (some (sampleBlock 3))) =
      ([Event.verifyCall (gossipChainID "testchain") 3 [7, 8],
        Event.peersQuery (gossipChainID "testchain")
          (sampleEnv.PeersOfChannel (gossipChainID "testchain")).length,
        Event.addPayload "testchain" (createPayload 3 [7, 8]),
        Event.gossip (createGossipMsg "testchain" (createPayload 3 [7, 8]))],
       none) ∧
    (createPayload 3 [7, 8]).SeqNum = 3 ∧
    (createPayload 3 [7, 8]).Data = [7, 8] ∧
    (createGossipMsg "testchain" (createPayload 3 [7, 8])).Channel = strBytes "testchain" ∧
    (createGossipMsg "testchain" (createPayload 3 [7, 8])).Tag = GossipTag.CHAN_AND_ORG ∧
    (createGossipMsg "testchain" (createPayload 3 [7, 8])).Nonce = 0 ∧
    (createGossipMsg "testchain" (createPayload 3 [7, 8])).Content =
      GossipContent.DataMsg (createPayload 3 [7, 8])) :=
  ⟨rfl, rfl, rfl,
    accepted_block_payload_gossip_shape sampleEnv "testchain" (sampleBlock 3)
      { Number := 3, PreviousHash := [], DataHash := [] } [7, 8] rfl rfl rfl⟩

theorem processMsg_obs (env₁ env₂ : Env) (chainID : String) (msg : DeliverResponse)
    (hm : env₁.marshal = env₂.marshal) (hv : env₁.VerifyBlock = env₂.VerifyBlock) :
    (processMsg env₁ chainID msg).2 = (processMsg env₂ chainID msg).2 ∧
    observable (processMsg env₁ chainID msg).1 = observable (processMsg env₂ chainID msg).1 := by
  cases msg with
  | status s => by_cases h : s = Status_SUCCESS <;> simp [processMsg, h]
  | unknown => simp [processMsg]
  | block ob =>
    cases ob with
    | none => simp [processMsg]
    | some blk =>
      cases hh : blk.Header with
      | none => simp [processMsg, hh]
      | some hdr =>
        cases hmar : env₁.marshal blk with
        | error e =>
          have hmar2 : env₂.marshal blk = Except.error e := by rw [← hm]; exact hmar
          simp [processMsg, hh, hmar, hmar2]
        | ok bytes =>
          have hmar2 : env₂.marshal blk = Except.ok bytes := by rw [← hm]; exact hmar
          cases hver : env₁.VerifyBlock (gossipChainID chainID) hdr.Number bytes with
          | some err =>
            have hver2 : env₂.VerifyBlock (gossipChainID chainID) hdr.Number bytes = some err := by
              rw [← hv]; exact hver
            simp [processMsg, hh, hmar, hmar2, hver, hver2]
          | none =>
            have hver2 : env₂.VerifyBlock (gossipChainID chainID) hdr.Number bytes = none := by
              rw [← hv]; exact hver
            simp [processMsg, hh, hmar, hmar2, hver, hver2, observable, isPeersQuery]

theorem deliverLoop_obs (env₁ env₂ : Env) (chainID : String) (inputs : List IterInput)
    (hm : env₁.marshal = env₂.marshal) (hv : env₁.VerifyBlock = env₂.VerifyBlock) :
    (deliverLoop env₁ chainID inputs).2 = (deliverLoop env₂ chainID inputs).2 ∧
    observable (deliverLoop env₁ chainID inputs).1 =
      observable (deliverLoop env₂ chainID inputs).1 := by
  induction inputs with
  | nil => simp [deliverLoop]
  | cons i rest ih =>
    obtain ⟨ihe, iho⟩ := ih
    cases hd : i.doneFlag with
    | true => simp [deliverLoop, hd]
    | false =>
      cases hr : i.recv with
      | error e => simp [deliverLoop, hd, hr]
      | ok msg =>
        obtain ⟨he, ho⟩ := processMsg_obs env₁ env₂ chainID msg hm hv
        rcases h1 : processMsg env₁ chainID msg with ⟨evs₁, ek₁⟩
        rcases h2 : processMsg env₂ chainID msg with ⟨evs₂, ek₂⟩
        rw [h1, h2] at he ho
        simp only at he ho
        subst he
        cases ek₁ with
        | some ek =>
          simp only [deliverLoop, hd, hr, h1, h2, Bool.false_eq_true, if_false]
          exact ⟨by trivial, by rw [observable_cons_recv, observable_cons_recv, ho]⟩
        | none =>
          simp only [deliverLoop, hd, hr, h1, h2, Bool.false_eq_true, if_false]
          refine ⟨ihe, ?_⟩
          rw [observable_cons_recv, observable_cons_recv,
            observable_append, observable_append, ho, iho]

/-- C8: two runs of `DeliverBlocks` over the same received messages and
the same marshaler and verifier verdicts, differing only in what
`PeersOfChannel` returns and in the error `AddPayload` reports, have the
same control flow (same exit) and the same observable trace once the
observability-only membership queries are erased — in particular the
arguments passed to `AddPayload` and `Gossip` are identical. -/
theorem membership_and_addpayload_result_unobservable (env₁ env₂ : Env)
    (chainID : String) (inputs : List IterInput)
    (hm : env₁.marshal = env₂.marshal) (hv : env₁.VerifyBlock = env₂.VerifyBlock) :
    (DeliverBlocks env₁ chainID inputs).2 = (DeliverBlocks env₂ chainID inputs).2 ∧
    observable (DeliverBlocks env₁ chainID inputs).1 =
      observable (DeliverBlocks env₂ chainID inputs).1 := by
  obtain ⟨he, ho⟩ := deliverLoop_obs env₁ env₂ chainID inputs hm hv
  unfold DeliverBlocks
  rcases h1 : deliverLoop env₁ chainID inputs with ⟨evs₁, ek₁⟩
  rcases h2 : deliverLoop env₂ chainID inputs with ⟨evs₂, ek₂⟩
  rw [h1, h2] at he ho
  simp only at he ho
  subst he
  cases ek₁ with
  | none => exact ⟨rfl, ho⟩
  | some ek =>
    refine ⟨rfl, ?_⟩
    simp only
    rw [observable_append, observable_append, ho]

theorem membership_and_addpayload_result_unobservable_witness :
    (sampleEnv.marshal = otherAdapterEnv.marshal) ∧
    (sampleEnv.VerifyBlock = otherAdapterEnv.VerifyBlock) ∧
    ((DeliverBlocks sampleEnv "testchain" [blockInput (sampleBlock 1)]).2 =
      (DeliverBlocks otherAdapterEnv "testchain" [blockInput (sampleBlock 1)]).2 ∧
    observable (DeliverBlocks sampleEnv "testchain" [blockInput (sampleBlock 1)]).1 =
      observable (DeliverBlocks otherAdapterEnv "testchain" [blockInput (sampleBlock 1)]).1) :=
  ⟨rfl, rfl,
    membership_and_addpayload_result_unobservable sampleEnv otherAdapterEnv
      "testchain" [blockInput (sampleBlock 1)] rfl rfl⟩

/-- C10: the liveness flag starts at 0 (running) out of the constructor,
`Stop` is the only operation that writes it (setting it to 1), `Stop` is
idempotent on the state, and once the flag is set no sequence of relay
operations ever resets it, so `isDone` is monotone. -/
theorem done_flag_monotone :
    (∀ chainID, isDone (NewBlocksProvider chainID) = false) ∧
    (∀ s, isDone (Stop s) = true) ∧
    (∀ s, Stop (Stop s) = Stop s) ∧
    (∀ s ops, isDone s = true → isDone (applyOps s ops) = true) := by
  refine ⟨fun chainID => rfl, fun s => rfl, fun s => rfl, ?_⟩
  intro s ops h
  induction ops generalizing s with
  | nil => exact h
  | cons op rest ih =>
    cases op with
    | stopOp => exact ih (Stop s) rfl
    | readOp => exact ih s h

theorem done_flag_monotone_witness :
    isDone (applyOps (Stop (NewBlocksProvider "testchain"))
      [RelayOp.readOp, RelayOp.stopOp, RelayOp.readOp]) = true :=
  done_flag_monotone.2.2.2 (Stop (NewBlocksProvider "testchain"))
    [RelayOp.readOp, RelayOp.stopOp, RelayOp.readOp] rfl

end BlocksProvider
